import Mathlib

/-!
Verification of the core of the nestjs-autodesk-acc client library:
token lifecycle, URN codec, five-stage upload pipeline, type resolver,
and folder navigator, shallowly embedded from the TypeScript source
(src/services/autodesk-auth.service.ts and
src/services/autodesk-data-management.service.ts, final revision).
HTTP interactions are modelled by explicit environments carrying each
remote response and by traces of the requests the code issues.
-/

/-- Character-list test: does l start with p (character by character)? -/
def startsWithChars : List Char → List Char → Bool
  | _, [] => true
  | [], _ :: _ => false
  | c :: s, p :: ps => c = p && startsWithChars s ps

/-- JavaScript String.prototype.includes on character lists: pat occurs
as a contiguous substring of s. -/
def containsSub : List Char → List Char → Bool
  | [], pat => pat.isEmpty
  | c :: t, pat => startsWithChars (c :: t) pat || containsSub t pat

/-- The literal head of storage-object URNs, from the regex
urn:adsk\.objects:os\.object:([^/]+)\/(.+) shared by getSignedUploadUrl,
completeUpload and uploadToStorage. -/
def urnTag : List Char := "urn:adsk.objects:os.object:".data

/-- JavaScript regex line terminators, which the dot of (.+) does not match. -/
def isLineTerm (c : Char) : Bool :=
  c = '\n' || c = '\r' || c = '\u2028' || c = '\u2029'

/-- One attempt of the JS regex at a fixed start position: the literal
urn tag, then a maximal non-empty run of non-slash characters ([^/]+,
which may include newlines), a slash, and a maximal non-empty run of
non-line-terminator characters ((.+), greedy to end of line). -/
def matchUrnAt (l : List Char) : Option (List Char × List Char) :=
  if startsWithChars l urnTag then
    let r := l.drop urnTag.length
    let b := r.takeWhile (fun c => c != '/')
    match r.dropWhile (fun c => c != '/') with
    | '/' :: rest =>
      let o := rest.takeWhile (fun c => !isLineTerm c)
      if b.isEmpty then none else if o.isEmpty then none else some (b, o)
    | _ => none
  else none

/-- Leftmost-match search of the unanchored JS regex: try every start
position from the left, as String.prototype.match does. -/
def scanUrn : List Char → Option (List Char × List Char)
  | [] => none
  | c :: t =>
    match matchUrnAt (c :: t) with
    | some x => some x
    | none => scanUrn t

/-- The URN decoding step shared by getSignedUploadUrl, completeUpload and
uploadToStorage: objectId.match(/urn:adsk\.objects:os\.object:([^/]+)\/(.+)/),
yielding the two capture groups (bucketKey, objectKey) on success. -/
def decodeObjectId (s : String) : Option (String × String) :=
  match scanUrn s.data with
  | some (b, o) => some (String.mk b, String.mk o)
  | none => none

/-- The spec's anchored pattern, written from the spec's words: the id is
exactly urn:adsk.objects:os.object:, then a non-empty bucket containing
no slash, a slash, and a non-empty remainder (the object key). Used to
compare the spec's claim against the code's unanchored regex. -/
def specUrnMatches (s : String) : Bool :=
  startsWithChars s.data urnTag &&
  (let r := s.data.drop urnTag.length
   let b := r.takeWhile (fun c => c != '/')
   match r.dropWhile (fun c => c != '/') with
   | '/' :: o => !b.isEmpty && !o.isEmpty
   | _ => false)

example : decodeObjectId "urn:adsk.objects:os.object:bucketA/obj" =
    some ("bucketA", "obj") := by decide

example : decodeObjectId "not-a-urn" = none := by decide

example : decodeObjectId "Xurn:adsk.objects:os.object:b/o" = some ("b", "o") := by
  decide

example : specUrnMatches "Xurn:adsk.objects:os.object:b/o" = false := by decide

example : decodeObjectId "urn:adsk.objects:os.object:a/b/c" = some ("a", "b/c") := by
  decide

/-- Child folder extension type chosen by createFolder from the parent
folder's extension type (TypeScript truthiness: an absent or empty parent
extension type falls back to the bim360 default). -/
def folderExtensionType (parentExt : Option String) : String :=
  match parentExt with
  | some t =>
    if t = "" then "folders:autodesk.bim360:Folder"
    else if containsSub t.data "bim360".data then "folders:autodesk.bim360:Folder"
    else if containsSub t.data "core".data then "folders:autodesk.core:Folder"
    else "folders:autodesk.bim360:Folder"
  | none => "folders:autodesk.bim360:Folder"

/-- Item extension type chosen by createFirstVersion from the parent
folder's extension type. -/
def itemTypeFor (parentExt : Option String) : String :=
  match parentExt with
  | some t =>
    if t = "" then "items:autodesk.bim360:File"
    else if containsSub t.data "bim360".data then "items:autodesk.bim360:File"
    else if containsSub t.data "core".data then "items:autodesk.core:File"
    else "items:autodesk.bim360:File"
  | none => "items:autodesk.bim360:File"

/-- Version extension type chosen by createFirstVersion from the parent
folder's extension type. -/
def versionTypeFor (parentExt : Option String) : String :=
  match parentExt with
  | some t =>
    if t = "" then "versions:autodesk.bim360:File"
    else if containsSub t.data "bim360".data then "versions:autodesk.bim360:File"
    else if containsSub t.data "core".data then "versions:autodesk.core:File"
    else "versions:autodesk.bim360:File"
  | none => "versions:autodesk.bim360:File"

/-- AutodeskStorageLocation (interfaces/file.interface.ts): the storage
object created by stage 1; its id is the URN threading the pipeline. -/
structure AutodeskStorageLocation where
  id : String
  objectKey : String
  size : Nat
  location : String
deriving DecidableEq

/-- AutodeskFolder (interfaces/file.interface.ts), flattened to the
attributes the verified code reads: name, displayName and the optional
extension type. -/
structure AutodeskFolder where
  id : String
  name : String
  displayName : String
  extensionType : Option String
deriving DecidableEq

/-- AutodeskItem, reduced to its identifying fields; the pipeline returns
it opaquely from the items POST response. -/
structure AutodeskItem where
  id : String
  displayName : String
deriving DecidableEq

/-- The included first-version resource of the composite item-creation
body built by createFirstVersion. -/
structure VersionInclude where
  name : String
  versionExtensionType : String
  storageId : String
deriving DecidableEq

/-- The composite item-plus-first-version creation body built by
createFirstVersion (jsonapi boilerplate omitted; every varying field kept). -/
structure ItemCreateBody where
  displayName : String
  itemExtensionType : String
  tipVersionId : String
  parentFolderId : String
  includedVersion : VersionInclude
deriving DecidableEq

/-- One HTTP request issued by the upload pipeline, one constructor per
endpoint, carrying exactly the data the code places in that request. -/
inductive PipelineReq where
  | reserve (projectId folderId fileName : String)
  | grant (bucketKey objectKey : String) (minutesExpiration : Nat)
  | transfer (url : String) (body : List Nat) (headers : List (String × String))
  | finalize (bucketKey objectKey : String) (uploadKeyField : String)
  | folderLookup (projectId folderId : String)
  | publish (projectId : String) (body : ItemCreateBody)
deriving DecidableEq

/-- Which axios client issues the request: every metadata/OSS call goes
through this.httpClient (whose interceptor attaches the bearer token);
only the stage-3 transfer uses the bare axios.put. -/
def PipelineReq.viaAuthedClient : PipelineReq → Bool
  | .transfer _ _ _ => false
  | _ => true

/-- The headers the calling code itself sets on the request. -/
def PipelineReq.ownHeaders : PipelineReq → List (String × String)
  | .transfer _ _ hs => hs
  | _ => []

/-- Headers on the wire: the httpClient interceptor prepends
Authorization with the bearer token; the bare axios client does not. -/
def wireHeaders (token : String) (r : PipelineReq) : List (String × String) :=
  if r.viaAuthedClient then ("Authorization", "Bearer " ++ token) :: r.ownHeaders
  else r.ownHeaders

/-- Remote responses for one upload attempt: each field is the outcome the
remote service returns for the corresponding request, errors as messages. -/
structure UploadEnv where
  reserveResp : Except String AutodeskStorageLocation
  grantResp : Except String (String × String)
  transferResp : Except String Unit
  finalizeResp : Except String Unit
  folderResp : Option AutodeskFolder
  publishResp : Except String AutodeskItem

/-- Stage 1 createStorage: POST the storage body under the folder, return
the storage object. -/
def createStorage (env : UploadEnv) (projectId folderId fileName : String) :
    Except String AutodeskStorageLocation × List PipelineReq :=
  (env.reserveResp, [.reserve projectId folderId fileName])

/-- Stage 2 getSignedUploadUrl: decode the URN; on failure throw the
invalid-identifier error, otherwise GET the signed upload grant
(minutesExpiration 30) and return (urls[0], uploadKey). -/
def getSignedUploadUrl (env : UploadEnv) (objectId : String) :
    Except String (String × String) × List PipelineReq :=
  match decodeObjectId objectId with
  | none => (.error "Invalid object ID format", [])
  | some (b, o) => (env.grantResp, [.grant b o 30])

/-- Stage 3 uploadToSignedUrl: PUT the raw bytes to the granted URL with
the bare axios client; content type defaults to application/octet-stream. -/
def uploadToSignedUrl (env : UploadEnv) (signedUrl : String) (fileBuffer : List Nat)
    (contentType : Option String) : Except String Unit × List PipelineReq :=
  let ct := contentType.getD "application/octet-stream"
  (env.transferResp,
   [.transfer signedUrl fileBuffer
      [("Content-Type", ct), ("Content-Length", toString fileBuffer.length)]])

/-- Stage 4 completeUpload: decode the URN again and POST the completion
body whose uploadKey field is the argument received from stage 2. -/
def completeUpload (env : UploadEnv) (objectId uploadKey : String) :
    Except String Unit × List PipelineReq :=
  match decodeObjectId objectId with
  | none => (.error "Invalid object ID format", [])
  | some (b, o) => (env.finalizeResp, [.finalize b o uploadKey])

/-- Stage 5 createFirstVersion: GET the parent folder (NotFoundException
when it cannot be fetched), resolve the item/version extension types from
its extension type, and POST the composite item-plus-version body whose
included version's storage relationship is the storage object id. -/
def createFirstVersion (env : UploadEnv) (projectId folderId fileName objectId : String) :
    Except String AutodeskItem × List PipelineReq :=
  match env.folderResp with
  | none =>
    (.error ("Folder " ++ folderId ++ " not found"), [.folderLookup projectId folderId])
  | some parent =>
    let body : ItemCreateBody :=
      { displayName := fileName
        itemExtensionType := itemTypeFor parent.extensionType
        tipVersionId := "1"
        parentFolderId := folderId
        includedVersion :=
          { name := fileName
            versionExtensionType := versionTypeFor parent.extensionType
            storageId := objectId } }
    (env.publishResp, [.folderLookup projectId folderId, .publish projectId body])

/-- uploadFile (final revision, the five-stage pipeline): Reserve, Grant,
Transfer, Finalize, Publish, each consuming the prior stage's output;
the first failure aborts and is rethrown wrapped as
BadRequestException with message Failed to upload file: error.message.
Returns the overall result together with the trace of issued requests. -/
def uploadFile (env : UploadEnv) (projectId folderId fileName : String)
    (fileBuffer : List Nat) (contentType : Option String) :
    Except String AutodeskItem × List PipelineReq :=
  match createStorage env projectId folderId fileName with
  | (.error e, t1) => (.error ("Failed to upload file: " ++ e), t1)
  | (.ok storage, t1) =>
    match getSignedUploadUrl env storage.id with
    | (.error e, t2) => (.error ("Failed to upload file: " ++ e), t1 ++ t2)
    | (.ok (signedUrl, uploadKey), t2) =>
      match uploadToSignedUrl env signedUrl fileBuffer contentType with
      | (.error e, t3) => (.error ("Failed to upload file: " ++ e), t1 ++ t2 ++ t3)
      | (.ok _, t3) =>
        match completeUpload env storage.id uploadKey with
        | (.error e, t4) => (.error ("Failed to upload file: " ++ e), t1 ++ t2 ++ t3 ++ t4)
        | (.ok _, t4) =>
          match createFirstVersion env projectId folderId fileName storage.id with
          | (.error e, t5) => (.error ("Failed to upload file: " ++ e), t1 ++ t2 ++ t3 ++ t4 ++ t5)
          | (.ok item, t5) => (.ok item, t1 ++ t2 ++ t3 ++ t4 ++ t5)

/-- AutodeskAuthContext (interfaces/auth.interface.ts): token, expiry in
epoch milliseconds, optional refresh token. -/
structure AuthContext where
  accessToken : String
  expiresAt : Int
  refreshToken : Option String
deriving DecidableEq

/-- AutodeskTokenResponse: the form-encoded grant endpoint's JSON reply. -/
structure TokenResponse where
  access_token : String
  token_type : String
  expires_in : Int
  refresh_token : Option String
deriving DecidableEq

/-- AutodeskAccModuleOptions, restricted to the fields the auth service
reads. -/
structure ModuleOptions where
  clientId : String
  clientSecret : String
  callbackUrl : Option String
  scopes : Option (List String)
deriving DecidableEq

/-- The URLSearchParams body of one POST to the authorization endpoint;
fields not sent by a given grant are none. -/
structure GrantRequest where
  grant_type : String
  client_id : String
  client_secret : String
  scope : Option String
  code : Option String
  redirect_uri : Option String
  refresh_token : Option String
deriving DecidableEq

/-- The scope set authenticate uses when options.scopes is not configured. -/
def defaultTwoLeggedScopes : List String :=
  ["data:read", "data:write", "data:create", "bucket:read", "bucket:create"]

/-- isTokenValid: false without a cached context, otherwise
Date.now() < expiresAt - 300000 (the 5-minute buffer). -/
def isTokenValid (now : Int) (cache : Option AuthContext) : Bool :=
  match cache with
  | none => false
  | some c => decide (now < c.expiresAt - 300000)

/-- The client-credentials grant body authenticate posts. -/
def clientCredentialsRequest (opts : ModuleOptions) : GrantRequest :=
  { grant_type := "client_credentials"
    client_id := opts.clientId
    client_secret := opts.clientSecret
    scope := some (String.intercalate " " (opts.scopes.getD defaultTwoLeggedScopes))
    code := none
    redirect_uri := none
    refresh_token := none }

/-- The AuthContext built from a token response: expiresAt is
Date.now() + expires_in * 1000; refresh_token copied as-is. -/
def contextOfResponse (now : Int) (tr : TokenResponse) : AuthContext :=
  { accessToken := tr.access_token
    expiresAt := now + tr.expires_in * 1000
    refreshToken := tr.refresh_token }

/-- The cache-miss arm of authenticate: post one client-credentials grant;
on success store the full new context and return its token, on failure
surface UnauthorizedException and leave the cache untouched. -/
def authRequestNew (opts : ModuleOptions) (now : Int) (resp : Except String TokenResponse)
    (cache : Option AuthContext) :
    Except String String × Option AuthContext × List GrantRequest :=
  let req := clientCredentialsRequest opts
  match resp with
  | .ok tr => (.ok tr.access_token, some (contextOfResponse now tr), [req])
  | .error _ => (.error "Failed to authenticate with Autodesk ACC", cache, [req])

/-- authenticate (2-legged OAuth, also reached via getAccessToken): return
the cached token while it is valid, otherwise request a fresh one.
Result, new cache contents, and the list of grant requests posted. -/
def authenticate (opts : ModuleOptions) (now : Int) (resp : Except String TokenResponse)
    (cache : Option AuthContext) :
    Except String String × Option AuthContext × List GrantRequest :=
  match cache with
  | some c =>
    if now < c.expiresAt - 300000 then (.ok c.accessToken, some c, [])
    else authRequestNew opts now resp (some c)
  | none => authRequestNew opts now resp none

/-- Form encoding of the characters that occur in the values the auth
service serializes (scopes, client ids, URLs): space becomes a plus,
colon and slash are percent-escaped, everything else is kept. -/
def formEncodeChar (c : Char) : String :=
  if c = ' ' then "+"
  else if c = ':' then "%3A"
  else if c = '/' then "%2F"
  else String.singleton c

/-- URLSearchParams.toString over a key-value list. -/
def queryString (ps : List (String × String)) : String :=
  String.intercalate "&" (ps.map (fun p => p.1 ++ "=" ++ String.join (p.2.data.map formEncodeChar)))

/-- getAuthorizationUrl (3-legged): deterministically build the authorize
URL; the shared cache is passed through untouched. -/
def getAuthorizationUrl (opts : ModuleOptions) (state : Option String)
    (cache : Option AuthContext) : String × Option AuthContext :=
  let scopes := opts.scopes.getD ["data:read", "data:write", "data:create"]
  let base := [("response_type", "code"),
               ("client_id", opts.clientId),
               ("redirect_uri", opts.callbackUrl.getD ""),
               ("scope", String.intercalate " " scopes)]
  let ps := match state with
    | some st => base ++ [("state", st)]
    | none => base
  ("https://developer.api.autodesk.com/authentication/v2/authorize?" ++ queryString ps,
   cache)

/-- getAccessTokenFromCode (3-legged code exchange): build a context from
the response and return it by value; the shared cache is never written. -/
def getAccessTokenFromCode (opts : ModuleOptions) (code : String)
    (resp : Except String TokenResponse) (now : Int) (cache : Option AuthContext) :
    Except String AuthContext × Option AuthContext :=
  match resp with
  | .ok tr => (.ok (contextOfResponse now tr), cache)
  | .error _ => (.error "Failed to exchange authorization code", cache)

/-- JavaScript a || b on an optional string against a string: undefined
and the empty string are both falsy and fall through to b. -/
def jsOrString (a : Option String) (b : String) : String :=
  match a with
  | some s => if s = "" then b else s
  | none => b

/-- refreshAccessToken (3-legged refresh): build a context whose
refreshToken is response.data.refresh_token || refreshToken; the shared
cache is never written. -/
def refreshAccessToken (opts : ModuleOptions) (refreshToken : String)
    (resp : Except String TokenResponse) (now : Int) (cache : Option AuthContext) :
    Except String AuthContext × Option AuthContext :=
  match resp with
  | .ok tr =>
    (.ok { accessToken := tr.access_token
           expiresAt := now + tr.expires_in * 1000
           refreshToken := some (jsOrString tr.refresh_token refreshToken) },
     cache)
  | .error _ => (.error "Failed to refresh access token", cache)

/-- Remote folder-tree state seen by the data-management service: the
immediate child folders of each folder id, folder details by id, and a
counter from which the service mints fresh folder ids. -/
structure DMState where
  childFolders : String → List AutodeskFolder
  folderInfo : String → Option AutodeskFolder
  nextId : Nat

/-- The name test of getOrCreateFolder's lookup: attributes.name or
attributes.displayName equals the requested name. -/
def nameMatches (folderName : String) (f : AutodeskFolder) : Bool :=
  f.name = folderName || f.displayName = folderName

/-- Fresh folder id minted by the remote on creation. -/
def freshFolderId (n : Nat) : String :=
  "urn:adsk.wipprod:fs.folder:co." ++ toString n

/-- createFolder: fetch the parent (its absence surfaces as the wrapped
BadRequestException), resolve the child extension type from the parent's
extension type, and create the child under the parent. Returns the
result, the new remote state, and how many create POSTs were issued. -/
def createFolderM (s : DMState) (parentFolderId folderName : String) :
    Except String AutodeskFolder × DMState × Nat :=
  match s.folderInfo parentFolderId with
  | none => (.error ("Failed to create folder: " ++ folderName), s, 0)
  | some parent =>
    let newF : AutodeskFolder :=
      { id := freshFolderId s.nextId
        name := folderName
        displayName := folderName
        extensionType := some (folderExtensionType parent.extensionType) }
    let s' : DMState :=
      { childFolders := fun p =>
          if p = parentFolderId then s.childFolders p ++ [newF] else s.childFolders p
        folderInfo := fun i => if i = newF.id then some newF else s.folderInfo i
        nextId := s.nextId + 1 }
    (.ok newF, s', 1)

/-- getOrCreateFolder: look for a name or displayName match among the
immediate child folders of the parent only; return the first match
without creating, otherwise create via createFolder. -/
def getOrCreateFolder (s : DMState) (parentFolderId folderName : String) :
    Except String AutodeskFolder × DMState × Nat :=
  match (s.childFolders parentFolderId).find? (nameMatches folderName) with
  | some f => (.ok f, s, 0)
  | none => createFolderM s parentFolderId folderName

theorem startsWithChars_iff (p l : List Char) :
    startsWithChars l p = true ↔ ∃ t, l = p ++ t := by
  induction p generalizing l with
  | nil =>
    simp only [startsWithChars, List.nil_append, true_iff]
    exact ⟨l, rfl⟩
  | cons q ps ih =>
    cases l with
    | nil =>
      simp [startsWithChars]
    | cons c s =>
      simp only [startsWithChars, Bool.and_eq_true, decide_eq_true_eq, ih,
        List.cons_append, List.cons.injEq]
      constructor
      · rintro ⟨rfl, t, rfl⟩
        exact ⟨t, rfl, rfl⟩
      · rintro ⟨t, rfl, rfl⟩
        exact ⟨rfl, t, rfl⟩

theorem startsWithChars_append (p t : List Char) :
    startsWithChars (p ++ t) p = true :=
  (startsWithChars_iff p (p ++ t)).2 ⟨t, rfl⟩

theorem takeWhile_all {p : Char → Bool} {l : List Char} (h : ∀ a ∈ l, p a = true) :
    l.takeWhile p = l := by
  induction l with
  | nil => rfl
  | cons c t ih =>
    simp [List.takeWhile_cons, h c (by simp), ih fun a ha => h a (by simp [ha])]

theorem takeWhile_sep {p : Char → Bool} (b : List Char) (x : Char) (rest : List Char)
    (hb : ∀ a ∈ b, p a = true) (hx : p x = false) :
    (b ++ x :: rest).takeWhile p = b ∧ (b ++ x :: rest).dropWhile p = x :: rest := by
  induction b with
  | nil => simp [List.takeWhile_cons, List.dropWhile_cons, hx]
  | cons c t ih =>
    have hc : p c = true := hb c (by simp)
    have iht := ih fun a ha => hb a (by simp [ha])
    simp [List.takeWhile_cons, List.dropWhile_cons, hc, iht.1, iht.2]

theorem matchUrnAt_nil : matchUrnAt [] = none := by decide

theorem matchUrnAt_eq (b rest : List Char) (hb : b ≠ []) (hb' : ∀ a ∈ b, a ≠ '/') :
    matchUrnAt (urnTag ++ (b ++ '/' :: rest)) =
      if (rest.takeWhile fun c => !isLineTerm c).isEmpty then none
      else some (b, rest.takeWhile fun c => !isLineTerm c) := by
  have hsw := startsWithChars_append urnTag (b ++ '/' :: rest)
  have hdrop : (urnTag ++ (b ++ '/' :: rest)).drop urnTag.length = b ++ '/' :: rest :=
    List.drop_left urnTag _
  have hb'' : ∀ a ∈ b, (fun c => c != '/') a = true := by
    intro a ha
    simpa using hb' a ha
  have hsep := takeWhile_sep b '/' rest hb'' (by simp)
  have hbe : b.isEmpty = false := by
    cases b with
    | nil => exact absurd rfl hb
    | cons _ _ => rfl
  unfold matchUrnAt
  rw [hsw]
  simp only [if_true]
  rw [hdrop, hsep.1, hsep.2, hbe]
  simp

theorem matchUrnAt_isSome_iff (l : List Char) :
    (matchUrnAt l).isSome = true ↔
      ∃ b c rest, l = urnTag ++ (b ++ '/' :: c :: rest) ∧ b ≠ [] ∧
        (∀ a ∈ b, a ≠ '/') ∧ isLineTerm c = false := by
  constructor
  · intro h
    by_cases hsw : startsWithChars l urnTag = true
    · obtain ⟨t, rfl⟩ := (startsWithChars_iff urnTag l).1 hsw
      have hdrop : (urnTag ++ t).drop urnTag.length = t := List.drop_left urnTag t
      unfold matchUrnAt at h
      rw [hsw] at h
      simp only [if_true] at h
      rw [hdrop] at h
      rcases hdw : t.dropWhile (fun c => c != '/') with _ | ⟨c₀, rest⟩
      · rw [hdw] at h
        simp at h
      rw [hdw] at h
      rcases hc₀ : (c₀ = '/' : Bool) with _ | _
      · have : c₀ ≠ '/' := by simpa using hc₀
        cases c₀ <;> simp_all [matchUrnAt]
      · have hc₀' : c₀ = '/' := by simpa using hc₀
        subst hc₀'
        simp only [Option.isSome] at h
        by_cases hbe : (t.takeWhile fun c => c != '/').isEmpty
        · rw [if_pos hbe] at h
          simp at h
        rw [if_neg hbe] at h
        by_cases hoe : (rest.takeWhile fun c => !isLineTerm c).isEmpty
        · rw [if_pos hoe] at h
          simp at h
        have hteq : t = t.takeWhile (fun c => c != '/') ++ '/' :: rest := by
          conv_lhs => rw [← List.takeWhile_append_dropWhile (fun c => c != '/') t]
          rw [hdw]
        have hbne : t.takeWhile (fun c => c != '/') ≠ [] := by
          intro hcon
          rw [hcon] at hbe
          exact hbe rfl
        have hbprop : ∀ a ∈ t.takeWhile (fun c => c != '/'), a ≠ '/' := by
          intro a ha
          have := List.mem_takeWhile_imp ha
          simpa using this
        cases rest with
        | nil => simp at hoe
        | cons c rest' =>
          have hcl : isLineTerm c = false := by
            by_cases hlt : isLineTerm c = true
            · rw [List.takeWhile_cons, hlt] at hoe
              simp at hoe
            · simpa using hlt
          exact ⟨t.takeWhile (fun c => c != '/'), c, rest', by conv_lhs => rw [hteq], hbne,
            hbprop, hcl⟩
    · unfold matchUrnAt at h
      rw [Bool.not_eq_true] at hsw
      rw [hsw] at h
      simp at h
  · rintro ⟨b, c, rest, rfl, hb, hb', hc⟩
    rw [matchUrnAt_eq b (c :: rest) hb hb']
    rw [List.takeWhile_cons]
    simp [hc]

theorem scanUrn_eq_of_match {l : List Char} {x : List Char × List Char}
    (h : matchUrnAt l = some x) : scanUrn l = some x := by
  cases l with
  | nil => rw [matchUrnAt_nil] at h; exact absurd h (by simp)
  | cons c t => simp [scanUrn, h]

theorem scanUrn_isSome_iff (l : List Char) :
    (scanUrn l).isSome = true ↔
      ∃ pre suf, l = pre ++ suf ∧ (matchUrnAt suf).isSome = true := by
  induction l with
  | nil =>
    apply iff_of_false
    · simp [scanUrn]
    · rintro ⟨pre, suf, h, hm⟩
      obtain ⟨rfl, rfl⟩ := List.append_eq_nil.1 h.symm
      rw [matchUrnAt_nil] at hm
      simp at hm
  | cons c t ih =>
    rcases hm : matchUrnAt (c :: t) with _ | x
    · have hl : scanUrn (c :: t) = scanUrn t := by simp [scanUrn, hm]
      rw [hl, ih]
      constructor
      · rintro ⟨pre, suf, rfl, h⟩
        exact ⟨c :: pre, suf, rfl, h⟩
      · rintro ⟨pre, suf, heq, h⟩
        cases pre with
        | nil =>
          simp only [List.nil_append] at heq
          rw [← heq, hm] at h
          simp at h
        | cons p pre' =>
          rw [List.cons_append, List.cons.injEq] at heq
          exact ⟨pre', suf, heq.2, h⟩
    · have hl : scanUrn (c :: t) = some x := by simp [scanUrn, hm]
      rw [hl]
      simp only [Option.isSome_some, true_iff]
      exact ⟨[], c :: t, rfl, by rw [hm]; rfl⟩

theorem decodeObjectId_isSome_iff_scan (s : String) :
    (decodeObjectId s).isSome = true ↔ (scanUrn s.data).isSome = true := by
  unfold decodeObjectId
  rcases h : scanUrn s.data with _ | ⟨b, o⟩ <;> simp [h]

/-- C6 (amended): decoding succeeds exactly when the id contains, at any
position, the urn tag followed by a non-empty slash-free bucket, a slash,
and at least one non-line-terminator character (the regex is unanchored);
on an id shaped exactly as the anchored pattern with a line-terminator-free
object key the captures are the bucket and the remainder; any id without
such an occurrence makes getSignedUploadUrl and completeUpload fail with
the invalid-identifier error, through the one shared decoding. -/
theorem urn_codec_characterization :
    (∀ s : String, (decodeObjectId s).isSome = true ↔
       ∃ pre b c rest, s.data = pre ++ (urnTag ++ (b ++ '/' :: c :: rest)) ∧ b ≠ [] ∧
         (∀ a ∈ b, a ≠ '/') ∧ isLineTerm c = false) ∧
    (∀ b o : List Char, b ≠ [] → (∀ a ∈ b, a ≠ '/') → o ≠ [] →
       (∀ c ∈ o, isLineTerm c = false) →
       decodeObjectId (String.mk (urnTag ++ (b ++ '/' :: o))) =
         some (String.mk b, String.mk o)) ∧
    (∀ env s uploadKey, decodeObjectId s = none →
       (getSignedUploadUrl env s).1 = .error "Invalid object ID format" ∧
       (completeUpload env s uploadKey).1 = .error "Invalid object ID format") := by
  refine ⟨fun s => ?_, fun b o hb hb' ho ho' => ?_, fun env s uk h => ?_⟩
  · rw [decodeObjectId_isSome_iff_scan, scanUrn_isSome_iff]
    constructor
    · rintro ⟨pre, suf, h, hm⟩
      obtain ⟨b, c, rest, rfl, hb, hb', hc⟩ := (matchUrnAt_isSome_iff suf).1 hm
      exact ⟨pre, b, c, rest, h, hb, hb', hc⟩
    · rintro ⟨pre, b, c, rest, h, hb, hb', hc⟩
      exact ⟨pre, _, h, (matchUrnAt_isSome_iff _).2 ⟨b, c, rest, rfl, hb, hb', hc⟩⟩
  · cases o with
    | nil => exact absurd rfl ho
    | cons c rest =>
      have hmatch : matchUrnAt (urnTag ++ (b ++ '/' :: c :: rest)) = some (b, c :: rest) := by
        rw [matchUrnAt_eq b (c :: rest) hb hb']
        have htw : (c :: rest).takeWhile (fun x => !isLineTerm x) = c :: rest :=
          takeWhile_all (by intro a ha; simpa using ho' a ha)
        rw [htw]
        simp
      have hscan := scanUrn_eq_of_match hmatch
      unfold decodeObjectId
      rw [show (String.mk (urnTag ++ (b ++ '/' :: c :: rest))).data =
            urnTag ++ (b ++ '/' :: c :: rest) from rfl, hscan]
  · exact ⟨by simp [getSignedUploadUrl, h], by simp [completeUpload, h]⟩

/-- C6 witness: the anchored well-formed id urn:adsk.objects:os.object:bucketA/obj
decodes to bucketA and obj. -/
theorem urn_codec_characterization_witness :
    decodeObjectId (String.mk (urnTag ++ ("bucketA".data ++ '/' :: "obj".data))) =
      some (String.mk "bucketA".data, String.mk "obj".data) :=
  urn_codec_characterization.2.1 "bucketA".data "obj".data (by decide) (by decide)
    (by decide) (by decide)

/-- C6 counterexample: decoding succeeds on an id that does not match the
spec's anchored pattern (a garbage-prefixed URN), because the code's regex
is unanchored; the spec's own malformed example still fails. -/
theorem urn_codec_unanchored_counterexample :
    decodeObjectId "Xurn:adsk.objects:os.object:b/o" = some ("b", "o") ∧
    specUrnMatches "Xurn:adsk.objects:os.object:b/o" = false ∧
    decodeObjectId "not-a-urn" = none :=
  ⟨by decide, by decide, by decide⟩

theorem intercalate_default_scopes :
    String.intercalate " " defaultTwoLeggedScopes =
      "data:read data:write data:create bucket:read bucket:create" := by decide

/-- C5: the child kind is chosen by ordered substring inspection of the
parent extension type: a type containing bim360 yields the
BIM-collaboration kind; otherwise one containing core yields the
generic-core kind; an absent, empty or unrecognized type yields the
BIM-collaboration default — identically for folder, item and version
creation. -/
theorem resolveChildType_spec :
    (∀ t : String,
      (containsSub t.data "bim360".data = true →
         folderExtensionType (some t) = "folders:autodesk.bim360:Folder" ∧
         itemTypeFor (some t) = "items:autodesk.bim360:File" ∧
         versionTypeFor (some t) = "versions:autodesk.bim360:File") ∧
      (containsSub t.data "bim360".data = false → containsSub t.data "core".data = true →
         folderExtensionType (some t) = "folders:autodesk.core:Folder" ∧
         itemTypeFor (some t) = "items:autodesk.core:File" ∧
         versionTypeFor (some t) = "versions:autodesk.core:File") ∧
      (containsSub t.data "bim360".data = false → containsSub t.data "core".data = false →
         folderExtensionType (some t) = "folders:autodesk.bim360:Folder" ∧
         itemTypeFor (some t) = "items:autodesk.bim360:File" ∧
         versionTypeFor (some t) = "versions:autodesk.bim360:File")) ∧
    (folderExtensionType none = "folders:autodesk.bim360:Folder" ∧
     itemTypeFor none = "items:autodesk.bim360:File" ∧
     versionTypeFor none = "versions:autodesk.bim360:File") := by
  refine ⟨fun t => ⟨?_, ?_, ?_⟩, by simp [folderExtensionType, itemTypeFor, versionTypeFor]⟩
  · intro h1
    by_cases ht : t = ""
    · subst ht
      exact absurd h1 (by decide)
    · simp [folderExtensionType, itemTypeFor, versionTypeFor, ht, h1]
  · intro h1 h2
    by_cases ht : t = ""
    · subst ht
      exact absurd h2 (by decide)
    · simp [folderExtensionType, itemTypeFor, versionTypeFor, ht, h1, h2]
  · intro h1 h2
    by_cases ht : t = ""
    · subst ht
      simp [folderExtensionType, itemTypeFor, versionTypeFor]
    · simp [folderExtensionType, itemTypeFor, versionTypeFor, ht, h1, h2]

/-- C5 witness: the spec's three examples — a bim360 parent, a core
parent, and an unrecognized parent. -/
theorem resolveChildType_spec_witness :
    folderExtensionType (some "folders:autodesk.bim360:Folder") =
      "folders:autodesk.bim360:Folder" ∧
    folderExtensionType (some "folders:autodesk.core:Folder") =
      "folders:autodesk.core:Folder" ∧
    itemTypeFor (some "something-else") = "items:autodesk.bim360:File" :=
  ⟨((resolveChildType_spec.1 "folders:autodesk.bim360:Folder").1 (by decide)).1,
   ((resolveChildType_spec.1 "folders:autodesk.core:Folder").2.1 (by decide) (by decide)).1,
   ((resolveChildType_spec.1 "something-else").2.2 (by decide) (by decide)).2.1⟩

/-- C3: while a cached context is valid (now strictly before expiresAt
minus the 5-minute buffer) authenticate returns the cached token and posts
nothing; otherwise it posts exactly one client-credentials grant — with the
five default scopes when none are configured — and on success replaces the
cache with the full new context and returns the new token. -/
theorem authenticate_cache_spec :
    (∀ (opts : ModuleOptions) (now : Int) (resp : Except String TokenResponse)
       (c : AuthContext), now < c.expiresAt - 300000 →
       authenticate opts now resp (some c) = (.ok c.accessToken, some c, [])) ∧
    (∀ (opts : ModuleOptions) (now : Int) (resp : Except String TokenResponse)
       (cache : Option AuthContext), isTokenValid now cache = false →
       (authenticate opts now resp cache).2.2 = [clientCredentialsRequest opts] ∧
       (∀ tr, resp = .ok tr →
          authenticate opts now resp cache =
            (.ok tr.access_token, some (contextOfResponse now tr),
             [clientCredentialsRequest opts]))) ∧
    (∀ opts : ModuleOptions, opts.scopes = none →
       (clientCredentialsRequest opts).scope =
         some "data:read data:write data:create bucket:read bucket:create") := by
  refine ⟨fun opts now resp c h => ?_, fun opts now resp cache h => ?_, fun opts h => ?_⟩
  · simp [authenticate, h]
  · have hgo : authenticate opts now resp cache = authRequestNew opts now resp cache := by
      cases cache with
      | none => rfl
      | some c =>
        have hc : ¬ now < c.expiresAt - 300000 := by
          simpa [isTokenValid] using h
        simp [authenticate, hc]
    constructor
    · rw [hgo]
      cases resp <;> rfl
    · intro tr htr
      subst htr
      rw [hgo]
      rfl
  · simp [clientCredentialsRequest, h, intercalate_default_scopes]

/-- C3 witness: a hit strictly inside the buffer returns the cached token
with no grant; a call past the buffer posts exactly one grant. -/
theorem authenticate_cache_spec_witness :
    authenticate ⟨"id", "sec", none, none⟩ 0 (.ok ⟨"tok2", "Bearer", 3600, none⟩)
        (some ⟨"tok1", 1000000, none⟩) = (.ok "tok1", some ⟨"tok1", 1000000, none⟩, []) ∧
    (authenticate ⟨"id", "sec", none, none⟩ 900000 (.ok ⟨"tok2", "Bearer", 3600, none⟩)
        (some ⟨"tok1", 1000000, none⟩)).2.2 =
      [clientCredentialsRequest ⟨"id", "sec", none, none⟩] :=
  ⟨authenticate_cache_spec.1 _ _ _ _ (by decide),
   (authenticate_cache_spec.2.1 _ _ _ _ (by decide)).1⟩

/-- C8: getAuthorizationUrl, getAccessTokenFromCode and refreshAccessToken
pass the shared 2-legged cache through unchanged in every case; their
contexts are only returned by value. -/
theorem threeLegged_cache_frame (opts : ModuleOptions) (st : Option String)
    (code refreshTok : String) (resp resp' : Except String TokenResponse)
    (now now' : Int) (cache : Option AuthContext) :
    (getAuthorizationUrl opts st cache).2 = cache ∧
    (getAccessTokenFromCode opts code resp now cache).2 = cache ∧
    (refreshAccessToken opts refreshTok resp' now' cache).2 = cache :=
  ⟨rfl, by cases resp <;> rfl, by cases resp' <;> rfl⟩

/-- C10 (amended): on a successful refresh the returned context's
refreshToken is the response's refresh_token when that is present and
non-empty, and the caller-supplied argument when the response omits it or
carries an empty string (JavaScript || treats both as falsy); with a
non-empty input the field is never absent or empty. -/
theorem refreshAccessToken_token_carry (opts : ModuleOptions) (rt : String)
    (tr : TokenResponse) (now : Int) (cache : Option AuthContext) :
    ∃ ctx, (refreshAccessToken opts rt (.ok tr) now cache).1 = .ok ctx ∧
      ((tr.refresh_token = none ∨ tr.refresh_token = some "") →
         ctx.refreshToken = some rt) ∧
      (∀ s, tr.refresh_token = some s → s ≠ "" → ctx.refreshToken = some s) ∧
      (rt ≠ "" → ∃ s, ctx.refreshToken = some s ∧ s ≠ "") := by
  refine ⟨_, rfl, ?_, ?_, ?_⟩
  · rintro (h | h) <;> simp [jsOrString, h]
  · intro s h hs
    simp [jsOrString, h, hs]
  · intro h
    rcases htr : tr.refresh_token with _ | s
    · exact ⟨rt, by simp [jsOrString, htr], h⟩
    · by_cases hs : s = ""
      · exact ⟨rt, by simp [jsOrString, htr, hs], h⟩
      · exact ⟨s, by simp [jsOrString, htr, hs], hs⟩

/-- C10 witness: a response omitting refresh_token keeps the caller's
token. -/
theorem refreshAccessToken_token_carry_witness :
    ∃ ctx, (refreshAccessToken ⟨"id", "sec", none, none⟩ "rt0"
        (.ok ⟨"at", "Bearer", 3600, none⟩) 0 none).1 = .ok ctx ∧
      ctx.refreshToken = some "rt0" := by
  obtain ⟨ctx, h1, h2, _, _⟩ :=
    refreshAccessToken_token_carry ⟨"id", "sec", none, none⟩ "rt0"
      ⟨"at", "Bearer", 3600, none⟩ 0 none
  exact ⟨ctx, h1, h2 (Or.inl rfl)⟩

/-- C10 counterexample: a response that carries refresh_token present but
equal to the empty string still yields the caller's token, not the
response's, because JavaScript || treats the empty string as falsy. -/
theorem refreshAccessToken_empty_string_counterexample :
    (refreshAccessToken ⟨"id", "sec", none, none⟩ "rt0"
        (.ok ⟨"at", "Bearer", 3600, some ""⟩) 0 none).1 =
      .ok ⟨"at", 3600000, some "rt0"⟩ ∧
    (some "" : Option String) ≠ none ∧ ("rt0" : String) ≠ "" :=
  ⟨rfl, by decide, by decide⟩

/-- C9: getOrCreateFolder decides from the immediate child folders of the
parent only (first name-or-displayName match wins without any create);
and after a first call that created the folder, a second call with the
same arguments finds that folder, returns the same resource, issues no
create, and leaves the remote state unchanged. -/
theorem getOrCreateFolder_idempotent (s : DMState) (parentFolderId folderName : String) :
    (∀ f, (s.childFolders parentFolderId).find? (nameMatches folderName) = some f →
       getOrCreateFolder s parentFolderId folderName = (.ok f, s, 0)) ∧
    (∀ pf, (s.childFolders parentFolderId).find? (nameMatches folderName) = none →
       s.folderInfo parentFolderId = some pf →
       ∃ f s', getOrCreateFolder s parentFolderId folderName = (.ok f, s', 1) ∧
         getOrCreateFolder s' parentFolderId folderName = (.ok f, s', 0)) := by
  constructor
  · intro f h
    simp [getOrCreateFolder, h]
  · intro pf h hp
    refine ⟨{ id := freshFolderId s.nextId
              name := folderName
              displayName := folderName
              extensionType := some (folderExtensionType pf.extensionType) },
            { childFolders := fun p =>
                if p = parentFolderId then
                  s.childFolders p ++
                    [{ id := freshFolderId s.nextId
                       name := folderName
                       displayName := folderName
                       extensionType := some (folderExtensionType pf.extensionType) }]
                else s.childFolders p
              folderInfo := fun i =>
                if i = freshFolderId s.nextId then
                  some { id := freshFolderId s.nextId
                         name := folderName
                         displayName := folderName
                         extensionType := some (folderExtensionType pf.extensionType) }
                else s.folderInfo i
              nextId := s.nextId + 1 }, ?_, ?_⟩
    · simp [getOrCreateFolder, h, createFolderM, hp]
    · have hmatch : nameMatches folderName
          { id := freshFolderId s.nextId
            name := folderName
            displayName := folderName
            extensionType := some (folderExtensionType pf.extensionType) } = true := by
        simp [nameMatches]
      simp [getOrCreateFolder, List.find?_append, h, List.find?_cons, hmatch]

/-- C9 witness: creating Docs under an empty root, then asking again,
returns the same folder with no second create. -/
theorem getOrCreateFolder_idempotent_witness :
    ∃ f s', getOrCreateFolder
        ⟨fun _ => [],
         fun i => if i = "root" then
             some ⟨"root", "Root", "Root", some "folders:autodesk.core:Folder"⟩
           else none,
         0⟩ "root" "Docs" = (.ok f, s', 1) ∧
      getOrCreateFolder s' "root" "Docs" = (.ok f, s', 0) :=
  (getOrCreateFolder_idempotent _ "root" "Docs").2
    ⟨"root", "Root", "Root", some "folders:autodesk.core:Folder"⟩ rfl (by decide)

/-- C2: on full success the five stages run exactly in the order Reserve,
Grant, Transfer, Finalize, Publish, each consuming the prior stage's
output (the grant and finalize address the decoded stage-1 URN, the
transfer targets the granted URL, the finalize carries the granted key),
and the composite publish request embeds a first version whose storage
relationship id is the stage-1 storage object id, with item and version
extension types resolved from the parent folder. -/
theorem uploadFile_pipeline_order (env : UploadEnv) (projectId folderId fileName : String)
    (fileBuffer : List Nat) (contentType : Option String)
    (st : AutodeskStorageLocation) (b o u k : String) (parent : AutodeskFolder)
    (item : AutodeskItem)
    (hres : env.reserveResp = .ok st)
    (hdec : decodeObjectId st.id = some (b, o))
    (hgrant : env.grantResp = .ok (u, k))
    (htr : env.transferResp = .ok ())
    (hfin : env.finalizeResp = .ok ())
    (hfold : env.folderResp = some parent)
    (hpub : env.publishResp = .ok item) :
    uploadFile env projectId folderId fileName fileBuffer contentType =
      (.ok item,
       [.reserve projectId folderId fileName,
        .grant b o 30,
        .transfer u fileBuffer
          [("Content-Type", contentType.getD "application/octet-stream"),
           ("Content-Length", toString fileBuffer.length)],
        .finalize b o k,
        .folderLookup projectId folderId,
        .publish projectId
          { displayName := fileName
            itemExtensionType := itemTypeFor parent.extensionType
            tipVersionId := "1"
            parentFolderId := folderId
            includedVersion :=
              { name := fileName
                versionExtensionType := versionTypeFor parent.extensionType
                storageId := st.id } }]) := by
  simp [uploadFile, createStorage, getSignedUploadUrl, uploadToSignedUrl, completeUpload,
    createFirstVersion, hres, hdec, hgrant, htr, hfin, hfold, hpub]

/-- C2 witness: uploading a 10-byte buffer into a core-kind folder yields
the core item/version types and threads the stage-1 URN into the included
version's storage relationship. -/
theorem uploadFile_pipeline_order_witness :
    uploadFile
      { reserveResp := .ok ⟨"urn:adsk.objects:os.object:bkt/obj", "obj", 10, "loc"⟩
        grantResp := .ok ("https://sign.example/put", "key123")
        transferResp := .ok ()
        finalizeResp := .ok ()
        folderResp := some ⟨"fld", "Plans", "Plans", some "folders:autodesk.core:Folder"⟩
        publishResp := .ok ⟨"item1", "a.txt"⟩ }
      "proj" "fld" "a.txt" [0, 1, 2, 3, 4, 5, 6, 7, 8, 9] none =
      (.ok ⟨"item1", "a.txt"⟩,
       [.reserve "proj" "fld" "a.txt",
        .grant "bkt" "obj" 30,
        .transfer "https://sign.example/put" [0, 1, 2, 3, 4, 5, 6, 7, 8, 9]
          [("Content-Type", "application/octet-stream"), ("Content-Length", "10")],
        .finalize "bkt" "obj" "key123",
        .folderLookup "proj" "fld",
        .publish "proj"
          { displayName := "a.txt"
            itemExtensionType := "items:autodesk.core:File"
            tipVersionId := "1"
            parentFolderId := "fld"
            includedVersion :=
              { name := "a.txt"
                versionExtensionType := "versions:autodesk.core:File"
                storageId := "urn:adsk.objects:os.object:bkt/obj" } }]) :=
  uploadFile_pipeline_order _ _ _ _ _ _ _ _ _ _ _ _ _ rfl (by decide) rfl rfl rfl rfl rfl

/-- C1: once stage 2 has granted uploadKey k (for the decoded stage-1
URN), every finalize request the pipeline issues carries exactly k in its
uploadKey field; after a successful transfer the finalize request is
issued; and when k is non-empty no finalize request ever carries an empty
key. -/
theorem uploadFile_finalize_key (env : UploadEnv) (projectId folderId fileName : String)
    (fileBuffer : List Nat) (contentType : Option String)
    (st : AutodeskStorageLocation) (b o u k : String)
    (hres : env.reserveResp = .ok st)
    (hdec : decodeObjectId st.id = some (b, o))
    (hgrant : env.grantResp = .ok (u, k)) :
    (∀ b' o' k', PipelineReq.finalize b' o' k' ∈
        (uploadFile env projectId folderId fileName fileBuffer contentType).2 →
      b' = b ∧ o' = o ∧ k' = k) ∧
    (env.transferResp = .ok () → PipelineReq.finalize b o k ∈
        (uploadFile env projectId folderId fileName fileBuffer contentType).2) ∧
    (k ≠ "" → ∀ b' o' k', PipelineReq.finalize b' o' k' ∈
        (uploadFile env projectId folderId fileName fileBuffer contentType).2 →
      k' ≠ "") := by
  have h1 : ∀ b' o' k', PipelineReq.finalize b' o' k' ∈
      (uploadFile env projectId folderId fileName fileBuffer contentType).2 →
      b' = b ∧ o' = o ∧ k' = k := by
    intro b' o' k' hm
    rcases htr : env.transferResp with e | u3
    · simp [uploadFile, createStorage, getSignedUploadUrl, uploadToSignedUrl,
        completeUpload, hres, hdec, hgrant, htr] at hm
    · rcases hfin : env.finalizeResp with e | u4
      · simp [uploadFile, createStorage, getSignedUploadUrl, uploadToSignedUrl,
          completeUpload, hres, hdec, hgrant, htr, hfin] at hm
        exact hm
      · rcases hfold : env.folderResp with _ | parent
        · simp [uploadFile, createStorage, getSignedUploadUrl, uploadToSignedUrl,
            completeUpload, createFirstVersion, hres, hdec, hgrant, htr, hfin, hfold] at hm
          exact hm
        · rcases hpub : env.publishResp with e | item
          · simp [uploadFile, createStorage, getSignedUploadUrl, uploadToSignedUrl,
              completeUpload, createFirstVersion, hres, hdec, hgrant, htr, hfin, hfold,
              hpub] at hm
            exact hm
          · simp [uploadFile, createStorage, getSignedUploadUrl, uploadToSignedUrl,
              completeUpload, createFirstVersion, hres, hdec, hgrant, htr, hfin, hfold,
              hpub] at hm
            exact hm
  have h2 : env.transferResp = .ok () → PipelineReq.finalize b o k ∈
      (uploadFile env projectId folderId fileName fileBuffer contentType).2 := by
    intro htr
    rcases hfin : env.finalizeResp with e | u4
    · simp [uploadFile, createStorage, getSignedUploadUrl, uploadToSignedUrl,
        completeUpload, hres, hdec, hgrant, htr, hfin]
    · rcases hfold : env.folderResp with _ | parent
      · simp [uploadFile, createStorage, getSignedUploadUrl, uploadToSignedUrl,
          completeUpload, createFirstVersion, hres, hdec, hgrant, htr, hfin, hfold]
      · rcases hpub : env.publishResp with e | item
        · simp [uploadFile, createStorage, getSignedUploadUrl, uploadToSignedUrl,
            completeUpload, createFirstVersion, hres, hdec, hgrant, htr, hfin, hfold, hpub]
        · simp [uploadFile, createStorage, getSignedUploadUrl, uploadToSignedUrl,
            completeUpload, createFirstVersion, hres, hdec, hgrant, htr, hfin, hfold, hpub]
  exact ⟨h1, h2, fun hk b' o' k' hm => by rw [(h1 b' o' k' hm).2.2]; exact hk⟩

/-- C1 witness: with a granted key key123 the finalize request carries
key123, which is non-empty. -/
theorem uploadFile_finalize_key_witness :
    PipelineReq.finalize "bkt" "obj" "key123" ∈
      (uploadFile
        { reserveResp := .ok ⟨"urn:adsk.objects:os.object:bkt/obj", "obj", 10, "loc"⟩
          grantResp := .ok ("https://sign.example/put", "key123")
          transferResp := .ok ()
          finalizeResp := .ok ()
          folderResp := some ⟨"fld", "Plans", "Plans", some "folders:autodesk.core:Folder"⟩
          publishResp := .ok ⟨"item1", "a.txt"⟩ }
        "proj" "fld" "a.txt" [0, 1, 2, 3, 4, 5, 6, 7, 8, 9] none).2 ∧
    ("key123" : String) ≠ "" :=
  ⟨(uploadFile_finalize_key _ _ _ _ _ _ _ _ _ _ _ rfl (by decide) rfl).2.1 rfl,
   by decide⟩

/-- C4: any stage-3 transfer request in any upload run is issued by the
bare client (never the interceptor-equipped one), carries exactly the
content headers with the content type defaulting to
application/octet-stream and the caller's bytes, and its wire headers
contain no Authorization entry for any bearer token. -/
theorem uploadFile_transfer_no_bearer (env : UploadEnv)
    (projectId folderId fileName : String) (fileBuffer : List Nat)
    (contentType : Option String) (token url : String) (body : List Nat)
    (hs : List (String × String))
    (hm : PipelineReq.transfer url body hs ∈
      (uploadFile env projectId folderId fileName fileBuffer contentType).2) :
    (PipelineReq.transfer url body hs).viaAuthedClient = false ∧
    hs = [("Content-Type", contentType.getD "application/octet-stream"),
          ("Content-Length", toString fileBuffer.length)] ∧
    body = fileBuffer ∧
    ∀ hdr ∈ wireHeaders token (.transfer url body hs), hdr.1 ≠ "Authorization" := by
  have key : hs = [("Content-Type", contentType.getD "application/octet-stream"),
      ("Content-Length", toString fileBuffer.length)] ∧ body = fileBuffer := by
    rcases hres : env.reserveResp with e | st
    · simp [uploadFile, createStorage, hres] at hm
    · rcases hdec : decodeObjectId st.id with _ | ⟨b, o⟩
      · simp [uploadFile, createStorage, getSignedUploadUrl, hres, hdec] at hm
      · rcases hgrant : env.grantResp with e | ⟨u, k⟩
        · simp [uploadFile, createStorage, getSignedUploadUrl, hres, hdec, hgrant] at hm
        · rcases htr : env.transferResp with e | u3
          · simp [uploadFile, createStorage, getSignedUploadUrl, uploadToSignedUrl,
              hres, hdec, hgrant, htr] at hm
            exact ⟨hm.2.2, hm.2.1⟩
          · rcases hfin : env.finalizeResp with e | u4
            · simp [uploadFile, createStorage, getSignedUploadUrl, uploadToSignedUrl,
                completeUpload, hres, hdec, hgrant, htr, hfin] at hm
              exact ⟨hm.2.2, hm.2.1⟩
            · rcases hfold : env.folderResp with _ | parent
              · simp [uploadFile, createStorage, getSignedUploadUrl, uploadToSignedUrl,
                  completeUpload, createFirstVersion, hres, hdec, hgrant, htr, hfin,
                  hfold] at hm
                exact ⟨hm.2.2, hm.2.1⟩
              · rcases hpub : env.publishResp with e | item
                · simp [uploadFile, createStorage, getSignedUploadUrl, uploadToSignedUrl,
                    completeUpload, createFirstVersion, hres, hdec, hgrant, htr, hfin,
                    hfold, hpub] at hm
                  exact ⟨hm.2.2, hm.2.1⟩
                · simp [uploadFile, createStorage, getSignedUploadUrl, uploadToSignedUrl,
                    completeUpload, createFirstVersion, hres, hdec, hgrant, htr, hfin,
                    hfold, hpub] at hm
                  exact ⟨hm.2.2, hm.2.1⟩
  refine ⟨rfl, key.1, key.2, ?_⟩
  intro hdr hmem
  have hw : wireHeaders token (PipelineReq.transfer url body hs) = hs := rfl
  rw [hw, key.1] at hmem
  cases hmem with
  | head => simp
  | tail _ hmem2 =>
    cases hmem2 with
    | head => simp
    | tail _ hmem3 => cases hmem3

/-- C4 witness: in a concrete successful run the transfer request is
issued by the bare client with exactly the content headers and bytes. -/
theorem uploadFile_transfer_no_bearer_witness :
    (PipelineReq.transfer "https://sign.example/put" [7, 7, 7]
        [("Content-Type", "application/octet-stream"),
         ("Content-Length", "3")]).viaAuthedClient = false ∧
    [(("Content-Type" : String), ("application/octet-stream" : String)),
     ("Content-Length", "3")] =
      [("Content-Type", (none : Option String).getD "application/octet-stream"),
       ("Content-Length", toString ([7, 7, 7] : List Nat).length)] ∧
    ([7, 7, 7] : List Nat) = [7, 7, 7] := by
  have h := uploadFile_transfer_no_bearer
    { reserveResp := .ok ⟨"urn:adsk.objects:os.object:bkt/obj", "obj", 3, "loc"⟩
      grantResp := .ok ("https://sign.example/put", "key123")
      transferResp := .ok ()
      finalizeResp := .ok ()
      folderResp := some ⟨"fld", "Plans", "Plans", none⟩
      publishResp := .ok ⟨"item1", "a.txt"⟩ }
    "proj" "fld" "a.txt" [7, 7, 7] none "tok" "https://sign.example/put" [7, 7, 7]
    [("Content-Type", "application/octet-stream"), ("Content-Length", "3")]
    (by decide)
  exact ⟨h.1, h.2.1, h.2.2.1⟩

/-- C7 (amended): a failure in any of the five stages aborts the pipeline
at that stage with no retry — the trace holds exactly one request per
stage reached and none beyond the failing stage — and the caller receives
a single wrapped failure whose message carries the underlying cause's
message; the wrapper does not name the failing stage. -/
theorem uploadFile_abort_on_failure (env : UploadEnv)
    (projectId folderId fileName : String) (fileBuffer : List Nat)
    (contentType : Option String) :
    (∀ m, env.reserveResp = .error m →
       uploadFile env projectId folderId fileName fileBuffer contentType =
         (.error ("Failed to upload file: " ++ m),
          [.reserve projectId folderId fileName])) ∧
    (∀ st, env.reserveResp = .ok st → decodeObjectId st.id = none →
       uploadFile env projectId folderId fileName fileBuffer contentType =
         (.error ("Failed to upload file: " ++ "Invalid object ID format"),
          [.reserve projectId folderId fileName])) ∧
    (∀ st b o m, env.reserveResp = .ok st → decodeObjectId st.id = some (b, o) →
       env.grantResp = .error m →
       uploadFile env projectId folderId fileName fileBuffer contentType =
         (.error ("Failed to upload file: " ++ m),
          [.reserve projectId folderId fileName, .grant b o 30])) ∧
    (∀ st b o u k m, env.reserveResp = .ok st → decodeObjectId st.id = some (b, o) →
       env.grantResp = .ok (u, k) → env.transferResp = .error m →
       uploadFile env projectId folderId fileName fileBuffer contentType =
         (.error ("Failed to upload file: " ++ m),
          [.reserve projectId folderId fileName, .grant b o 30,
           .transfer u fileBuffer
             [("Content-Type", contentType.getD "application/octet-stream"),
              ("Content-Length", toString fileBuffer.length)]])) ∧
    (∀ st b o u k m, env.reserveResp = .ok st → decodeObjectId st.id = some (b, o) →
       env.grantResp = .ok (u, k) → env.transferResp = .ok () →
       env.finalizeResp = .error m →
       uploadFile env projectId folderId fileName fileBuffer contentType =
         (.error ("Failed to upload file: " ++ m),
          [.reserve projectId folderId fileName, .grant b o 30,
           .transfer u fileBuffer
             [("Content-Type", contentType.getD "application/octet-stream"),
              ("Content-Length", toString fileBuffer.length)],
           .finalize b o k])) ∧
    (∀ st b o u k, env.reserveResp = .ok st → decodeObjectId st.id = some (b, o) →
       env.grantResp = .ok (u, k) → env.transferResp = .ok () →
       env.finalizeResp = .ok () → env.folderResp = none →
       uploadFile env projectId folderId fileName fileBuffer contentType =
         (.error ("Failed to upload file: " ++ ("Folder " ++ folderId ++ " not found")),
          [.reserve projectId folderId fileName, .grant b o 30,
           .transfer u fileBuffer
             [("Content-Type", contentType.getD "application/octet-stream"),
              ("Content-Length", toString fileBuffer.length)],
           .finalize b o k, .folderLookup projectId folderId])) ∧
    (∀ st b o u k parent m, env.reserveResp = .ok st → decodeObjectId st.id = some (b, o) →
       env.grantResp = .ok (u, k) → env.transferResp = .ok () →
       env.finalizeResp = .ok () → env.folderResp = some parent →
       env.publishResp = .error m →
       uploadFile env projectId folderId fileName fileBuffer contentType =
         (.error ("Failed to upload file: " ++ m),
          [.reserve projectId folderId fileName, .grant b o 30,
           .transfer u fileBuffer
             [("Content-Type", contentType.getD "application/octet-stream"),
              ("Content-Length", toString fileBuffer.length)],
           .finalize b o k, .folderLookup projectId folderId,
           .publish projectId
             { displayName := fileName
               itemExtensionType := itemTypeFor parent.extensionType
               tipVersionId := "1"
               parentFolderId := folderId
               includedVersion :=
                 { name := fileName
                   versionExtensionType := versionTypeFor parent.extensionType
                   storageId := st.id } }])) := by
  refine ⟨fun m h1 => ?_, fun st h1 h2 => ?_, fun st b o m h1 h2 h3 => ?_,
    fun st b o u k m h1 h2 h3 h4 => ?_, fun st b o u k m h1 h2 h3 h4 h5 => ?_,
    fun st b o u k h1 h2 h3 h4 h5 h6 => ?_, fun st b o u k parent m h1 h2 h3 h4 h5 h6 h7 => ?_⟩
  · simp [uploadFile, createStorage, h1]
  · simp [uploadFile, createStorage, getSignedUploadUrl, h1, h2]
  · simp [uploadFile, createStorage, getSignedUploadUrl, h1, h2, h3]
  · simp [uploadFile, createStorage, getSignedUploadUrl, uploadToSignedUrl, h1, h2, h3, h4]
  · simp [uploadFile, createStorage, getSignedUploadUrl, uploadToSignedUrl, completeUpload,
      h1, h2, h3, h4, h5]
  · simp [uploadFile, createStorage, getSignedUploadUrl, uploadToSignedUrl, completeUpload,
      createFirstVersion, h1, h2, h3, h4, h5, h6]
  · simp [uploadFile, createStorage, getSignedUploadUrl, uploadToSignedUrl, completeUpload,
      createFirstVersion, h1, h2, h3, h4, h5, h6, h7]

/-- C7 witness: a reserve failure surfaces the wrapped message and stops
after the single reserve request. -/
theorem uploadFile_abort_on_failure_witness :
    uploadFile
      { reserveResp := .error "storage down"
        grantResp := .error "x"
        transferResp := .ok ()
        finalizeResp := .ok ()
        folderResp := none
        publishResp := .error "x" }
      "proj" "fld" "a.txt" [] none =
      (.error ("Failed to upload file: " ++ "storage down"),
       [.reserve "proj" "fld" "a.txt"]) :=
  (uploadFile_abort_on_failure _ "proj" "fld" "a.txt" [] none).1 "storage down" rfl

/-- C7 counterexample: two runs that fail at different stages (Reserve in
the first, Transfer in the second, as their traces show) surface the
identical wrapped result to the caller, so the failure result does not
identify the failing stage. -/
theorem uploadFile_failure_lacks_stage_counterexample :
    uploadFile
      { reserveResp := .error "boom"
        grantResp := .error "x"
        transferResp := .ok ()
        finalizeResp := .ok ()
        folderResp := none
        publishResp := .error "x" }
      "proj" "fld" "a.txt" [] none =
      (.error "Failed to upload file: boom", [.reserve "proj" "fld" "a.txt"]) ∧
    uploadFile
      { reserveResp := .ok ⟨"urn:adsk.objects:os.object:bkt/obj", "obj", 0, "loc"⟩
        grantResp := .ok ("https://sign.example/put", "key123")
        transferResp := .error "boom"
        finalizeResp := .ok ()
        folderResp := none
        publishResp := .error "x" }
      "proj" "fld" "a.txt" [] none =
      (.error "Failed to upload file: boom",
       [.reserve "proj" "fld" "a.txt", .grant "bkt" "obj" 30,
        .transfer "https://sign.example/put" []
          [("Content-Type", "application/octet-stream"), ("Content-Length", "0")]]) :=
  ⟨rfl, rfl⟩
